import Mathlib

/-!
Shallow embedding of the qrcode1 browser QR-code generator.

Modules embedded (from `src/js/`):
* `QRGenerator.js` — content validation against per-error-correction-level
  capacity limits, `generate`, `clear`, `regenerate`.
* `ContentParser.js` — formatting of phone / email / wifi content into
  payload strings, plus the email and color validators.
* `CustomizationManager.js` — customization options, reset to defaults,
  mapping to encoder options, hex-color validation.
* `HistoryManager.js` — bounded most-recent-first history list.

JavaScript strings are modelled as Lean `String` (all inputs of interest
are BMP text, where JS `.length` agrees with the number of characters).
JS string helpers (`trim`, `\s`, `\d`, `encodeURIComponent`) are
re-implemented below with JS semantics rather than borrowed from Lean's
standard library.
-/

/-- Characters matched by JavaScript `\s` and removed by `String.prototype.trim`
(ECMAScript WhiteSpace and LineTerminator sets). -/
def jsWhitespace (c : Char) : Bool :=
  c = ' ' || c = '\t' || c = '\n' || c = '\r' ||
  c.toNat = 0x0B || c.toNat = 0x0C || c.toNat = 0xA0 || c.toNat = 0x1680 ||
  (0x2000 ≤ c.toNat && c.toNat ≤ 0x200A) ||
  c.toNat = 0x2028 || c.toNat = 0x2029 || c.toNat = 0x202F ||
  c.toNat = 0x205F || c.toNat = 0x3000 || c.toNat = 0xFEFF

/-- JavaScript `String.prototype.trim`: drop leading and trailing whitespace. -/
def jsTrim (s : String) : String :=
  String.mk (((s.data.dropWhile jsWhitespace).reverse.dropWhile jsWhitespace).reverse)

/-- JavaScript regex class `\d`, i.e. the ASCII digits. -/
def jsDigit (c : Char) : Bool :=
  '0' ≤ c && c ≤ '9'

namespace QRGenerator

/-- Error-correction level constants of the external QRCode.js library
(`QRCode.CorrectLevel`): `L = 1`, `M = 0`, `Q = 3`, `H = 2`. -/
def CorrectLevel.L : Nat := 1

/-- QRCode.js `CorrectLevel.M` (the default level). -/
def CorrectLevel.M : Nat := 0

/-- QRCode.js `CorrectLevel.Q`. -/
def CorrectLevel.Q : Nat := 3

/-- QRCode.js `CorrectLevel.H`. -/
def CorrectLevel.H : Nat := 2

/-- `QRGenerator.getMaxLengthForLevel`: the capacity table
`{L: 2953, M: 2331, Q: 1663, H: 1273}`, with `limits[level] || 2000`
falling back to `2000` for any unrecognized level value. -/
def getMaxLengthForLevel (level : Nat) : Nat :=
  if level = CorrectLevel.L then 2953
  else if level = CorrectLevel.M then 2331
  else if level = CorrectLevel.Q then 1663
  else if level = CorrectLevel.H then 1273
  else 2000

/-- The user-facing capacity message emitted through
`errorHandler.showUserError` when content is too long, naming the limit. -/
def capacityMessage (maxLength : Nat) : String :=
  "Conteúdo muito longo. Máximo " ++ toString maxLength ++
  " caracteres para este nível de correção."

/-- `QRGenerator.validateContent`: rejects empty (or all-whitespace)
content, then rejects content whose trimmed length exceeds the capacity
limit for the generator's current error-correction level.  Returns the
boolean result together with the capacity warning message shown to the
user (present exactly on the too-long branch). -/
def validateContent (content : String) (correctLevel : Nat) : Bool × Option String :=
  if content = "" then (false, none)
  else
    let c := jsTrim content
    if c.length = 0 then (false, none)
    else
      let maxLength := getMaxLengthForLevel correctLevel
      if maxLength < c.length then (false, some (capacityMessage maxLength))
      else (true, none)

/-- Encoder options handed to the external QRCode.js constructor
(`width/height/colorDark/colorLight/correctLevel`). -/
structure Options where
  width : Nat
  height : Nat
  colorDark : String
  colorLight : String
  correctLevel : Nat
deriving DecidableEq, Repr

/-- `QRGenerator.defaultOptions`. -/
def defaultOptions : Options :=
  { width := 200, height := 200, colorDark := "#000000",
    colorLight := "#ffffff", correctLevel := CorrectLevel.M }

/-- A partial options object, as produced by JS object spread
`{ ...base, ...patch }`: present fields override the base. -/
structure OptionsPatch where
  width : Option Nat := none
  height : Option Nat := none
  colorDark : Option String := none
  colorLight : Option String := none
  correctLevel : Option Nat := none
deriving DecidableEq, Repr

/-- JS spread merge `{ ...base, ...p }`. -/
def Options.merge (base : Options) (p : OptionsPatch) : Options :=
  { width := p.width.getD base.width
    height := p.height.getD base.height
    colorDark := p.colorDark.getD base.colorDark
    colorLight := p.colorLight.getD base.colorLight
    correctLevel := p.correctLevel.getD base.correctLevel }

/-- A full options object viewed as a patch that overrides every field
(used by `regenerate`, which passes a complete options object on to
`generate`). -/
def OptionsPatch.ofOptions (o : Options) : OptionsPatch :=
  { width := some o.width, height := some o.height,
    colorDark := some o.colorDark, colorLight := some o.colorLight,
    correctLevel := some o.correctLevel }

/-- The `currentQRCode` payload stored after a successful generation
(`content` and the merged options; the generated id and timestamp are
omitted from the model). -/
structure QRRecord where
  content : String
  options : Options
deriving DecidableEq, Repr

/-- The mutable state of a `QRGenerator` instance: its current `options`
and the `currentQRCode` record (if any). -/
structure GenState where
  options : Options
  currentQRCode : Option QRRecord
deriving DecidableEq, Repr

/-- Errors thrown by `generate` / `regenerate`. -/
inductive GenError where
  /-- `generate` threw `'Invalid content provided'` (validation failed). -/
  | invalidContent
  /-- the external encoder produced no canvas/img
  (`'Failed to generate QR code'`). -/
  | generationFailed
  /-- `regenerate` threw `'No QR code to regenerate'`. -/
  | noActiveRecord
deriving DecidableEq, Repr

/-- `QRGenerator.generate(content, customization)`.  The external
QRCode.js render is abstracted by the `encode` oracle (does a canvas/img
appear for this payload and these options).  Validation runs first,
against the generator's *current* `options.correctLevel`; only when it
passes is the previous QR cleared (`clear()` sets `currentQRCode = null`),
the options merged, and the encoder invoked. -/
def generate (encode : String → Options → Bool) (st : GenState)
    (content : String) (customization : OptionsPatch) :
    GenState × Option GenError :=
  if (validateContent content st.options.correctLevel).1 = false then
    (st, some GenError.invalidContent)
  else
    let cleared : GenState := { st with currentQRCode := none }
    let qrOptions := st.options.merge customization
    if encode content qrOptions then
      ({ cleared with
          currentQRCode := some { content := content, options := qrOptions } }, none)
    else
      (cleared, some GenError.generationFailed)

/-- `QRGenerator.clear`. -/
def clear (st : GenState) : GenState :=
  { st with currentQRCode := none }

/-- `QRGenerator.regenerate(newOptions)`: fails when no current QR code
is stored; otherwise re-runs `generate` on the stored content with the
stored record's options spread-merged with the new options. -/
def regenerate (encode : String → Options → Bool) (st : GenState)
    (newOptions : OptionsPatch) : GenState × Option GenError :=
  match st.currentQRCode with
  | none => (st, some GenError.noActiveRecord)
  | some rec =>
      let updatedOptions := rec.options.merge newOptions
      generate encode st rec.content (OptionsPatch.ofOptions updatedOptions)

/-- A 3000-character payload (the spec's capacity example). -/
def bigPayload : String := String.mk (List.replicate 3000 'a')

end QRGenerator

namespace ContentParser

/-- Character class `[^\s@]` used by the email regex
`^[^\s@]+@[^\s@]+\.[^\s@]+$`. -/
def emailSegChar (c : Char) : Bool :=
  !(jsWhitespace c) && !(c = '@')

/-- Split a character list at the first occurrence of `sep`: returns the
(`sep`-free) part before it and the part after it, or `none` when `sep`
does not occur. -/
def splitFirst (sep : Char) : List Char → Option (List Char × List Char)
  | [] => none
  | c :: cs =>
      if c = sep then some ([], cs)
      else
        match splitFirst sep cs with
        | none => none
        | some (front, rest) => some (c :: front, rest)

/-- `ContentParser.validateEmail`: the regex test
`/^[^\s@]+@[^\s@]+\.[^\s@]+$/.test(email)`.  A string matches exactly
when it splits as `front ++ '@' ++ domain` with `front` a non-empty run
of `[^\s@]` characters and `domain` a run of `[^\s@]` characters
containing a `'.'` that is neither its first nor its last character. -/
def validateEmail (email : String) : Bool :=
  match splitFirst '@' email.data with
  | none => false
  | some (front, domain) =>
      !front.isEmpty && front.all emailSegChar &&
      domain.all emailSegChar && ((domain.drop 1).dropLast.contains '.')

/-- The well-formedness criterion the spec states for an email address:
exactly one `@` (both sides are `@`-free), a non-empty segment before
it, and a dotted domain — a `.` with non-empty parts on both sides —
after it. -/
def EmailCriteria (e : String) : Prop :=
  ∃ front domain, e.data = front ++ '@' :: domain ∧ front ≠ [] ∧
    '@' ∉ front ∧ '@' ∉ domain ∧
    ∃ b c, domain = b ++ '.' :: c ∧ b ≠ [] ∧ c ≠ []

/-- Characters left unescaped by JavaScript `encodeURIComponent`
(unreserved marks plus ASCII alphanumerics). -/
def uriUnreserved (c : Char) : Bool :=
  ('A' ≤ c && c ≤ 'Z') || ('a' ≤ c && c ≤ 'z') || ('0' ≤ c && c ≤ '9') ||
  c = '-' || c = '_' || c = '.' || c = '!' || c = '~' || c = '*' ||
  c = '\'' || c = '(' || c = ')'

/-- The UTF-8 bytes of a character, as natural numbers. -/
def utf8Bytes (c : Char) : List Nat :=
  let n := c.toNat
  if n < 0x80 then [n]
  else if n < 0x800 then [0xC0 + n / 64, 0x80 + n % 64]
  else if n < 0x10000 then
    [0xE0 + n / 4096, 0x80 + (n / 64) % 64, 0x80 + n % 64]
  else
    [0xF0 + n / 262144, 0x80 + (n / 4096) % 64, 0x80 + (n / 64) % 64,
      0x80 + n % 64]

/-- Uppercase hexadecimal digit for a value below 16. -/
def hexDigitChar (n : Nat) : Char :=
  if n < 10 then Char.ofNat ('0'.toNat + n) else Char.ofNat ('A'.toNat + n - 10)

/-- Percent-escape of one byte, e.g. `%20`. -/
def percentByte (b : Nat) : List Char :=
  ['%', hexDigitChar (b / 16), hexDigitChar (b % 16)]

/-- JavaScript `encodeURIComponent`: unreserved characters pass through,
every other character is replaced by the percent-escapes of its UTF-8
bytes. -/
def encodeURIComponent (s : String) : String :=
  String.mk
    (List.flatten (s.data.map fun c =>
      if uriUnreserved c then [c] else List.flatten ((utf8Bytes c).map percentByte)))

/-- `ContentParser.formatEmail`: `mailto:<addr>`, with URL-encoded
`subject` / `body` parameters appended for the non-empty fields, joined
with `&` and introduced by `?` when at least one is present. -/
def formatEmail (email : String) (subject : String := "") (body : String := "") :
    String :=
  let params :=
    (if subject = "" then [] else ["subject=" ++ encodeURIComponent subject]) ++
    (if body = "" then [] else ["body=" ++ encodeURIComponent body])
  "mailto:" ++ email ++
    (if 0 < params.length then "?" ++ String.intercalate "&" params else "")

/-- `ContentParser.parseEmail`: trims the three fields, requires a
non-empty address passing `validateEmail`, then formats. -/
def parseEmail (email subject body : String) : Except String String :=
  let e := jsTrim email
  let s := jsTrim subject
  let b := jsTrim body
  if e = "" then Except.error "Digite um email"
  else if validateEmail e = false then Except.error "Email inválido"
  else Except.ok (formatEmail e s b)

/-- `ContentParser.formatPhone`: `phone.replace(/[^\d+]/g, '')` keeps the
digits and every `+` sign, then prepends `tel:`. -/
def formatPhone (phone : String) : String :=
  "tel:" ++ String.mk (phone.data.filter fun c => jsDigit c || c = '+')

/-- `ContentParser.parsePhone`: trims the input, errors when it is empty,
otherwise formats it. -/
def parsePhone (phone : String) : Except String String :=
  let p := jsTrim phone
  if p = "" then Except.error "Digite um número de telefone"
  else Except.ok (formatPhone p)

/-- `ContentParser.formatWiFi`:
`WIFI:T:<security>;S:<ssid>;P:<password>;H:<true|false>;;`. -/
def formatWiFi (ssid password security : String) (hidden : Bool) : String :=
  "WIFI:T:" ++ security ++ ";S:" ++ ssid ++ ";P:" ++ password ++ ";H:" ++
    (if hidden then "true" else "false") ++ ";;"

/-- `ContentParser.parseWiFi`: the ssid field is trimmed and must be
non-empty; a missing password field becomes `""`; a missing or empty
security value falls back to `'WPA'` (JS `|| 'WPA'`); a missing hidden
checkbox is `false`. -/
def parseWiFi (ssid : String) (password : Option String)
    (security : Option String) (hidden : Bool) : Except String String :=
  let s := jsTrim ssid
  let p := password.getD ""
  let sec := match security with
    | none => "WPA"
    | some v => if v = "" then "WPA" else v
  if s = "" then Except.error "Digite o nome da rede WiFi"
  else Except.ok (formatWiFi s p sec hidden)

end ContentParser

namespace CustomizationManager

/-- The customization options held in
`CustomizationManager.currentOptions`. -/
structure CustOptions where
  size : Nat
  colorDark : String
  colorLight : String
  errorCorrectionLevel : Nat
  margin : Nat
deriving DecidableEq, Repr

/-- `CustomizationManager.defaultOptions`:
`{size: 200, colorDark: '#000000', colorLight: '#ffffff',
errorCorrectionLevel: QRCode.CorrectLevel.M, margin: 4}`. -/
def defaultOptions : CustOptions :=
  { size := 200, colorDark := "#000000", colorLight := "#ffffff",
    errorCorrectionLevel := QRGenerator.CorrectLevel.M, margin := 4 }

/-- The QRCode.js-shaped options produced by `mapOptionsToQRCode`. -/
structure MappedOptions where
  width : Nat
  height : Nat
  colorDark : String
  colorLight : String
  correctLevel : Nat
  margin : Nat
deriving DecidableEq, Repr

/-- `CustomizationManager.mapOptionsToQRCode`. -/
def mapOptionsToQRCode (options : CustOptions) : MappedOptions :=
  { width := options.size, height := options.size,
    colorDark := options.colorDark, colorLight := options.colorLight,
    correctLevel := options.errorCorrectionLevel, margin := options.margin }

/-- The state of a `CustomizationManager` instance relevant here:
its `currentOptions` (the DOM control mirroring is not modelled). -/
structure CustState where
  currentOptions : CustOptions
deriving DecidableEq, Repr

/-- `CustomizationManager.resetToDefaults`:
`this.currentOptions = { ...this.defaultOptions }`. -/
def resetToDefaults (st : CustState) : CustState :=
  { st with currentOptions := defaultOptions }

/-- Character class `[0-9A-F]` under the `i` flag: any hexadecimal digit,
either case. -/
def isHexDigitCI (c : Char) : Bool :=
  ('0' ≤ c && c ≤ '9') || ('A' ≤ c && c ≤ 'F') || ('a' ≤ c && c ≤ 'f')

/-- `CustomizationManager.isValidColor`: the regex test
`/^#[0-9A-F]{6}$/i.test(color)` — a `#` followed by exactly six
hexadecimal digits of either case. -/
def isValidColor (color : String) : Bool :=
  match color.data with
  | '#' :: rest => rest.length = 6 && rest.all isHexDigitCI
  | _ => false

/-- Which of the two color text inputs fired (`setupColorControls('dark')`
or `setupColorControls('light')`). -/
inductive ColorField where
  | dark
  | light
deriving DecidableEq, Repr

/-- Read the stored color for a field. -/
def getColor (o : CustOptions) (field : ColorField) : String :=
  match field with
  | ColorField.dark => o.colorDark
  | ColorField.light => o.colorLight

/-- Store a color for a field. -/
def setColor (o : CustOptions) (field : ColorField) (color : String) : CustOptions :=
  match field with
  | ColorField.dark => { o with colorDark := color }
  | ColorField.light => { o with colorLight := color }

/-- The `change` handler installed by `setupColorControls` on the color
text inputs: a valid color is stored via `updateOption`; an invalid one
leaves `currentOptions` untouched, shows the `InvalidColor` message and
resets the text box to the previously stored value.  Returns the new
options and the error message, if any. -/
def applyColorText (o : CustOptions) (field : ColorField) (color : String) :
    CustOptions × Option String :=
  if isValidColor color then (setColor o field color, none)
  else (o, some "Cor inválida. Use formato #RRGGBB")

end CustomizationManager

namespace HistoryManager

/-- One history entry as built by `addToHistory` (the stored options and
timestamp are not needed by the claims and are omitted). -/
structure HistoryItem where
  id : Nat
  content : String
  preview : String
deriving DecidableEq, Repr

/-- `HistoryManager.generatePreview`:
`content.substring(0, 50) + (content.length > 50 ? '...' : '')`. -/
def generatePreview (content : String) : String :=
  String.mk (content.data.take 50) ++
    (if 50 < content.length then "..." else "")

/-- The list mutation performed by `HistoryManager.addToHistory`:
`history.unshift(item)` followed by `history.splice(this.maxItems)`
when the length exceeds `maxItems` (i.e. keep the first `maxItems`
entries).  The updated list is what gets persisted. -/
def addToHistory (maxItems : Nat) (history : List HistoryItem)
    (item : HistoryItem) : List HistoryItem :=
  let h := item :: history
  if maxItems < h.length then h.take maxItems else h

/-- A sequence of `addToHistory` calls starting from the empty log (the
state `Utils.storage.get` yields for missing or corrupt storage). -/
def addAll (maxItems : Nat) (items : List HistoryItem) : List HistoryItem :=
  items.foldl (addToHistory maxItems) []

/-- `HistoryManager.removeItem` on the stored list:
`history.filter(item => item.id !== id)`. -/
def removeItem (history : List HistoryItem) (id : Nat) : List HistoryItem :=
  history.filter fun item => !(item.id = id)

end HistoryManager

theorem string_ext {a b : String} (h : a.data = b.data) : a = b := by
  cases a
  cases b
  cases h
  rfl

theorem string_append_assoc (a b c : String) : a ++ b ++ c = a ++ (b ++ c) := by
  apply string_ext
  simp [List.append_assoc]

theorem string_eq_empty_of_length {s : String} (h : s.length = 0) : s = "" := by
  cases s with
  | mk l =>
      cases l with
      | nil => rfl
      | cons c cs => exact absurd h (by simp [String.length])

theorem jsTrim_of_empty : jsTrim "" = "" := rfl

theorem dropWhile_replicate_of_not (p : Char → Bool) (a : Char) (h : p a = false) (n : Nat) :
    (List.replicate n a).dropWhile p = List.replicate n a := by
  cases n with
  | zero => rfl
  | succ m => simp [List.replicate_succ, List.dropWhile_cons, h]

theorem jsTrim_bigPayload : jsTrim QRGenerator.bigPayload = QRGenerator.bigPayload := by
  unfold jsTrim QRGenerator.bigPayload
  rw [dropWhile_replicate_of_not _ _ (by decide), List.reverse_replicate,
    dropWhile_replicate_of_not _ _ (by decide), List.reverse_replicate]

theorem bigPayload_length : QRGenerator.bigPayload.length = 3000 := by
  show (List.replicate 3000 'a').length = 3000
  exact List.length_replicate 3000 'a'

theorem bigPayload_ne_empty : QRGenerator.bigPayload ≠ "" := by
  intro h
  have h0 : QRGenerator.bigPayload.length = 0 := by rw [h]; rfl
  rw [bigPayload_length] at h0
  exact absurd h0 (by decide)

theorem validateContent_unfold (content : String) (level : Nat) :
    QRGenerator.validateContent content level =
      if content = "" then (false, none)
      else if (jsTrim content).length = 0 then (false, none)
      else if QRGenerator.getMaxLengthForLevel level < (jsTrim content).length then
        (false, some (QRGenerator.capacityMessage (QRGenerator.getMaxLengthForLevel level)))
      else (true, none) := rfl

theorem validate_bigPayload_L :
    QRGenerator.validateContent QRGenerator.bigPayload QRGenerator.CorrectLevel.L =
      (false, some (QRGenerator.capacityMessage 2953)) := by
  rw [validateContent_unfold, if_neg bigPayload_ne_empty, jsTrim_bigPayload,
    bigPayload_length]
  norm_num [QRGenerator.getMaxLengthForLevel]

theorem validate_bigPayload_H :
    QRGenerator.validateContent QRGenerator.bigPayload QRGenerator.CorrectLevel.H =
      (false, some (QRGenerator.capacityMessage 1273)) := by
  rw [validateContent_unfold, if_neg bigPayload_ne_empty, jsTrim_bigPayload,
    bigPayload_length]
  norm_num [QRGenerator.getMaxLengthForLevel, QRGenerator.CorrectLevel.H,
    QRGenerator.CorrectLevel.L, QRGenerator.CorrectLevel.M, QRGenerator.CorrectLevel.Q]

theorem jsTrim_ne_empty_src {content : String} (h : jsTrim content ≠ "") : content ≠ "" := by
  intro hc
  rw [hc] at h
  exact h jsTrim_of_empty

theorem validateContent_fst_iff (content : String) (level : Nat)
    (h : jsTrim content ≠ "") :
    (QRGenerator.validateContent content level).1 = true ↔
      (jsTrim content).length ≤ QRGenerator.getMaxLengthForLevel level := by
  have h0 : ¬((jsTrim content).length = 0) := fun hl => h (string_eq_empty_of_length hl)
  rw [validateContent_unfold, if_neg (jsTrim_ne_empty_src h), if_neg h0]
  by_cases hlt : QRGenerator.getMaxLengthForLevel level < (jsTrim content).length
  · rw [if_pos hlt]
    simp
    omega
  · rw [if_neg hlt]
    simp
    omega

theorem validateContent_snd_of_long (content : String) (level : Nat)
    (h : jsTrim content ≠ "")
    (hlt : QRGenerator.getMaxLengthForLevel level < (jsTrim content).length) :
    QRGenerator.validateContent content level =
      (false, some (QRGenerator.capacityMessage (QRGenerator.getMaxLengthForLevel level))) := by
  have h0 : ¬((jsTrim content).length = 0) := fun hl => h (string_eq_empty_of_length hl)
  rw [validateContent_unfold, if_neg (jsTrim_ne_empty_src h), if_neg h0, if_pos hlt]

theorem generate_of_invalid (encode : String → QRGenerator.Options → Bool)
    (st : QRGenerator.GenState) (content : String) (p : QRGenerator.OptionsPatch)
    (h : (QRGenerator.validateContent content st.options.correctLevel).1 = false) :
    QRGenerator.generate encode st content p = (st, some QRGenerator.GenError.invalidContent) := by
  unfold QRGenerator.generate
  rw [if_pos h]

theorem generate_of_valid (encode : String → QRGenerator.Options → Bool)
    (st : QRGenerator.GenState) (content : String) (p : QRGenerator.OptionsPatch)
    (h : (QRGenerator.validateContent content st.options.correctLevel).1 = true) :
    QRGenerator.generate encode st content p =
      (if encode content (st.options.merge p) then
        ({ st with currentQRCode := some ⟨content, st.options.merge p⟩ }, none)
      else ({ st with currentQRCode := none },
        some QRGenerator.GenError.generationFailed)) := by
  unfold QRGenerator.generate
  rw [if_neg (by simp [h])]

/-- C6: after `resetToDefaults`, mapping the customization state through
`mapOptionsToQRCode` always yields the documented default render options
`{size 200, colorDark #000000, colorLight #ffffff, level M, margin 4}`,
no matter what the state held before the reset. -/
theorem reset_maps_to_documented_defaults (st : CustomizationManager.CustState) :
    CustomizationManager.mapOptionsToQRCode
        (CustomizationManager.resetToDefaults st).currentOptions =
      { width := 200, height := 200, colorDark := "#000000",
        colorLight := "#ffffff", correctLevel := QRGenerator.CorrectLevel.M,
        margin := 4 } := rfl

/-- C7: a color string passed to the color-text change handler is accepted
exactly when it is `#` followed by six hexadecimal digits of either case;
on acceptance it is stored for the chosen field, otherwise the handler
reports the invalid-color message and the previously stored color is
unchanged; in particular `"red"` is rejected this way. -/
theorem color_set_spec (o : CustomizationManager.CustOptions)
    (field : CustomizationManager.ColorField) (color : String) :
    ((CustomizationManager.applyColorText o field color).2 = none ↔
      CustomizationManager.isValidColor color = true) ∧
    (CustomizationManager.isValidColor color = true ↔
      ∃ ds, color.data = '#' :: ds ∧ ds.length = 6 ∧
        ∀ c ∈ ds, CustomizationManager.isHexDigitCI c = true) ∧
    (CustomizationManager.isValidColor color = true →
      CustomizationManager.getColor
        (CustomizationManager.applyColorText o field color).1 field = color) ∧
    (CustomizationManager.isValidColor color = false →
      CustomizationManager.applyColorText o field color =
        (o, some "Cor inválida. Use formato #RRGGBB")) ∧
    CustomizationManager.applyColorText o field "red" =
      (o, some "Cor inválida. Use formato #RRGGBB") := by
  refine ⟨?_, ?_, ?_, ?_, ?_⟩
  · unfold CustomizationManager.applyColorText
    by_cases h : CustomizationManager.isValidColor color = true
    · rw [if_pos h]
      simp [h]
    · rw [if_neg h]
      simp [h]
  · unfold CustomizationManager.isValidColor
    cases hd : color.data with
    | nil => simp
    | cons c rest =>
        by_cases hc : c = '#'
        · subst hc
          simp [List.all_eq_true]
        · constructor
          · intro hb
            exact absurd hb (by simp [hc])
          · rintro ⟨ds, hds, -, -⟩
            rw [List.cons.injEq] at hds
            exact absurd hds.1 hc
  · intro h
    unfold CustomizationManager.applyColorText
    rw [if_pos h]
    cases field <;> rfl
  · intro h
    unfold CustomizationManager.applyColorText
    rw [if_neg (by simp [h])]
  · rfl

/-- C7 witness: `"red"` is rejected and the prior colors survive. -/
theorem color_set_spec_witness :
    CustomizationManager.applyColorText CustomizationManager.defaultOptions
        CustomizationManager.ColorField.dark "red" =
      (CustomizationManager.defaultOptions, some "Cor inválida. Use formato #RRGGBB") :=
  (color_set_spec CustomizationManager.defaultOptions
    CustomizationManager.ColorField.dark "red").2.2.2.1 (by rfl)

/-- C2 counterexample: the phone formatter does not fail when stripping
leaves nothing (`"abc"` yields the bare `tel:`), and it keeps a `+`
that is not leading (`"1+2"` yields `tel:1+2`), contradicting the claim
that only a leading `+` is kept and that an empty result is an error. -/
theorem parsePhone_counterexample :
    ContentParser.parsePhone "abc" = Except.ok "tel:" ∧
    ContentParser.parsePhone "1+2" = Except.ok "tel:1+2" := ⟨rfl, rfl⟩

/-- C2 (amended): the phone formatter fails exactly when the trimmed
input is empty; otherwise it strips every character except digits and
`+` signs (wherever they occur, possibly leaving nothing after `tel:`)
and returns `tel:` followed by the kept characters; in particular
`"+55 (11) 99999-9999"` becomes `tel:+5511999999999`. -/
theorem parsePhone_spec (phone : String) :
    (ContentParser.parsePhone phone = Except.error "Digite um número de telefone" ↔
      jsTrim phone = "") ∧
    (jsTrim phone ≠ "" →
      ContentParser.parsePhone phone =
        Except.ok ("tel:" ++
          String.mk ((jsTrim phone).data.filter fun c => jsDigit c || c = '+'))) ∧
    ContentParser.parsePhone "+55 (11) 99999-9999" =
      Except.ok "tel:+5511999999999" := by
  refine ⟨?_, ?_, rfl⟩
  · unfold ContentParser.parsePhone
    by_cases h : jsTrim phone = ""
    · simp [h]
    · simp [h]
  · intro h
    unfold ContentParser.parsePhone
    rw [if_neg h]
    rfl

/-- C2 witness: the spec's own example, run through the amended
statement. -/
theorem parsePhone_spec_witness :
    ContentParser.parsePhone "+55 (11) 99999-9999" =
      Except.ok ("tel:" ++
        String.mk ((jsTrim "+55 (11) 99999-9999").data.filter
          fun c => jsDigit c || c = '+')) :=
  (parsePhone_spec "+55 (11) 99999-9999").2.1 (by decide)

theorem wifi_envelope (s p sec : String) (hid : Bool) :
    (∃ t, (ContentParser.formatWiFi s p sec hid).data = "WIFI:T:".data ++ t) ∧
    (∃ u, (ContentParser.formatWiFi s p sec hid).data = u ++ ";;".data) := by
  unfold ContentParser.formatWiFi
  constructor
  · exact ⟨(sec ++ ";S:" ++ s ++ ";P:" ++ p ++ ";H:" ++
      (if hid then "true" else "false") ++ ";;").data, by simp [List.append_assoc]⟩
  · exact ⟨("WIFI:T:" ++ sec ++ ";S:" ++ s ++ ";P:" ++ p ++ ";H:" ++
      (if hid then "true" else "false")).data, by simp [List.append_assoc]⟩

/-- C5: the WiFi formatter fails exactly when the trimmed SSID is empty;
otherwise it returns exactly
`WIFI:T:<security>;S:<ssid>;P:<password>;H:<true|false>;;`, where a
missing security selection defaults to `WPA` and an empty password is
kept as the empty string; every produced payload starts with `WIFI:T:`
and ends with `;;`. -/
theorem parseWiFi_spec (ssid : String) (password security : Option String)
    (hidden : Bool) :
    (ContentParser.parseWiFi ssid password security hidden =
        Except.error "Digite o nome da rede WiFi" ↔ jsTrim ssid = "") ∧
    (jsTrim ssid ≠ "" →
      ContentParser.parseWiFi ssid password security hidden =
        Except.ok ("WIFI:T:" ++
          (match security with
            | none => "WPA"
            | some v => if v = "" then "WPA" else v) ++
          ";S:" ++ jsTrim ssid ++ ";P:" ++ password.getD "" ++ ";H:" ++
          (if hidden then "true" else "false") ++ ";;")) ∧
    (∀ out, ContentParser.parseWiFi ssid password security hidden = Except.ok out →
      (∃ t, out.data = "WIFI:T:".data ++ t) ∧ (∃ u, out.data = u ++ ";;".data)) := by
  refine ⟨?_, ?_, ?_⟩
  · unfold ContentParser.parseWiFi
    by_cases h : jsTrim ssid = ""
    · simp [h]
    · simp [h]
  · intro h
    unfold ContentParser.parseWiFi
    rw [if_neg h]
    cases security with
    | none => rfl
    | some v => rfl
  · intro out hout
    unfold ContentParser.parseWiFi at hout
    by_cases h : jsTrim ssid = ""
    · rw [if_pos h] at hout
      cases hout
    · rw [if_neg h] at hout
      rw [Except.ok.injEq] at hout
      subst hout
      exact wifi_envelope _ _ _ _

/-- C5 witness: a concrete WiFi payload with defaulted security and empty
password, and its grammar envelope. -/
theorem parseWiFi_spec_witness :
    ContentParser.parseWiFi "MyNet" none none false =
      Except.ok ("WIFI:T:" ++ "WPA" ++ ";S:" ++ jsTrim "MyNet" ++ ";P:" ++ "" ++
        ";H:" ++ "false" ++ ";;") ∧
    (∃ t, ("WIFI:T:WPA;S:MyNet;P:;H:false;;" : String).data = "WIFI:T:".data ++ t) ∧
    (∃ u, ("WIFI:T:WPA;S:MyNet;P:;H:false;;" : String).data = u ++ ";;".data) := by
  refine ⟨(parseWiFi_spec "MyNet" none none false).2.1 (by decide), ?_⟩
  exact (parseWiFi_spec "MyNet" none none false).2.2
    "WIFI:T:WPA;S:MyNet;P:;H:false;;" (by rfl)

/-- C8: `regenerate` fails with the no-active-record error exactly when no
generation has succeeded yet; when a current record exists it re-runs
`generate` on the stored payload with the record's stored options
spread-merged with the new options, and when validation and encoding go
through, the resulting current record carries exactly those merged
options. -/
theorem regenerate_spec (encode : String → QRGenerator.Options → Bool)
    (st : QRGenerator.GenState) (p : QRGenerator.OptionsPatch) :
    (st.currentQRCode = none →
      QRGenerator.regenerate encode st p =
        (st, some QRGenerator.GenError.noActiveRecord)) ∧
    (∀ rec, st.currentQRCode = some rec →
      QRGenerator.regenerate encode st p =
        QRGenerator.generate encode st rec.content
          (QRGenerator.OptionsPatch.ofOptions (rec.options.merge p)) ∧
      (∀ q, st.options.merge (QRGenerator.OptionsPatch.ofOptions q) = q) ∧
      ((QRGenerator.validateContent rec.content st.options.correctLevel).1 = true →
        encode rec.content (rec.options.merge p) = true →
        QRGenerator.regenerate encode st p =
          ({ st with currentQRCode := some ⟨rec.content, rec.options.merge p⟩ }, none))) := by
  constructor
  · intro h
    unfold QRGenerator.regenerate
    rw [h]
  · intro rec hrec
    have hre : QRGenerator.regenerate encode st p =
        QRGenerator.generate encode st rec.content
          (QRGenerator.OptionsPatch.ofOptions (rec.options.merge p)) := by
      unfold QRGenerator.regenerate
      rw [hrec]
    refine ⟨hre, fun q => rfl, fun hval henc => ?_⟩
    rw [hre, generate_of_valid encode st rec.content _ hval]
    have hm : st.options.merge (QRGenerator.OptionsPatch.ofOptions
        (rec.options.merge p)) = rec.options.merge p := rfl
    rw [hm, if_pos henc]

/-- C8 witness: with an empty state `regenerate` reports
no-active-record, and with a stored record it re-encodes the stored
payload under the merged options. -/
theorem regenerate_spec_witness :
    (QRGenerator.regenerate (fun _ _ => true)
        { options := QRGenerator.defaultOptions, currentQRCode := none } {} =
      ({ options := QRGenerator.defaultOptions, currentQRCode := none },
        some QRGenerator.GenError.noActiveRecord)) ∧
    (QRGenerator.regenerate (fun _ _ => true)
        { options := QRGenerator.defaultOptions,
          currentQRCode := some ⟨"hello", QRGenerator.defaultOptions⟩ }
        { correctLevel := some QRGenerator.CorrectLevel.H } =
      ({ options := QRGenerator.defaultOptions,
          currentQRCode := some ⟨"hello",
            { QRGenerator.defaultOptions with
                correctLevel := QRGenerator.CorrectLevel.H }⟩ }, none)) := by
  constructor
  · exact (regenerate_spec (fun _ _ => true)
      { options := QRGenerator.defaultOptions, currentQRCode := none } {}).1 rfl
  · exact ((regenerate_spec (fun _ _ => true)
      { options := QRGenerator.defaultOptions,
        currentQRCode := some ⟨"hello", QRGenerator.defaultOptions⟩ }
      { correctLevel := some QRGenerator.CorrectLevel.H }).2
      ⟨"hello", QRGenerator.defaultOptions⟩ rfl).2.2 (by decide) rfl

/-- C9: for any error-correction level value other than the four
recognized QRCode.js constants, the capacity lookup falls back to the
default limit `2000`, so validation of non-blank content under such a
level accepts exactly the payloads whose trimmed length is at most
`2000`. -/
theorem unrecognized_level_default_limit (level : Nat) (content : String)
    (hL : level ≠ QRGenerator.CorrectLevel.L)
    (hM : level ≠ QRGenerator.CorrectLevel.M)
    (hQ : level ≠ QRGenerator.CorrectLevel.Q)
    (hH : level ≠ QRGenerator.CorrectLevel.H) :
    QRGenerator.getMaxLengthForLevel level = 2000 ∧
    (jsTrim content ≠ "" →
      ((QRGenerator.validateContent content level).1 = true ↔
        (jsTrim content).length ≤ 2000)) := by
  have hdef : QRGenerator.getMaxLengthForLevel level = 2000 := by
    unfold QRGenerator.getMaxLengthForLevel
    rw [if_neg hL, if_neg hM, if_neg hQ, if_neg hH]
  refine ⟨hdef, fun h => ?_⟩
  rw [validateContent_fst_iff content level h, hdef]

/-- C9 witness: level `5` is unrecognized, its limit is `2000`, and
`"hello"` passes validation under it. -/
theorem unrecognized_level_default_limit_witness :
    QRGenerator.getMaxLengthForLevel 5 = 2000 ∧
    (jsTrim "hello" ≠ "" →
      ((QRGenerator.validateContent "hello" 5).1 = true ↔
        (jsTrim "hello").length ≤ 2000)) :=
  unrecognized_level_default_limit 5 "hello"
    (by decide) (by decide) (by decide) (by decide)

/-- C10: whenever content validation fails, `generate` throws the
invalid-content error before reaching the `clear()` step, so the state —
in particular the stored current record — is exactly what it was before
the call. -/
theorem generate_validation_preserves_record
    (encode : String → QRGenerator.Options → Bool) (st : QRGenerator.GenState)
    (content : String) (p : QRGenerator.OptionsPatch)
    (h : (QRGenerator.validateContent content st.options.correctLevel).1 = false) :
    QRGenerator.generate encode st content p =
      (st, some QRGenerator.GenError.invalidContent) ∧
    (QRGenerator.generate encode st content p).1.currentQRCode = st.currentQRCode := by
  have he := generate_of_invalid encode st content p h
  exact ⟨he, by rw [he]⟩

/-- C10 witness: an empty payload fails validation and leaves a
previously stored record in place. -/
theorem generate_validation_preserves_record_witness :
    QRGenerator.generate (fun _ _ => true)
        { options := QRGenerator.defaultOptions,
          currentQRCode := some ⟨"hello", QRGenerator.defaultOptions⟩ } "" {} =
      ({ options := QRGenerator.defaultOptions,
          currentQRCode := some ⟨"hello", QRGenerator.defaultOptions⟩ },
        some QRGenerator.GenError.invalidContent) ∧
    (QRGenerator.generate (fun _ _ => true)
        { options := QRGenerator.defaultOptions,
          currentQRCode := some ⟨"hello", QRGenerator.defaultOptions⟩ } "" {}).1.currentQRCode =
      some ⟨"hello", QRGenerator.defaultOptions⟩ :=
  generate_validation_preserves_record (fun _ _ => true)
    { options := QRGenerator.defaultOptions,
      currentQRCode := some ⟨"hello", QRGenerator.defaultOptions⟩ } "" {} (by decide)

/-- C1 counterexample: the 3000-character payload is rejected under level
Low as well — 3000 exceeds the Low capacity 2953 — so the claim that it
succeeds with level Low is false. -/
theorem bigPayload_low_rejected :
    QRGenerator.validateContent QRGenerator.bigPayload QRGenerator.CorrectLevel.L =
      (false, some (QRGenerator.capacityMessage 2953)) ∧
    (QRGenerator.generate (fun _ _ => true)
        { options := { QRGenerator.defaultOptions with
            correctLevel := QRGenerator.CorrectLevel.L },
          currentQRCode := none } QRGenerator.bigPayload {}).2 =
      some QRGenerator.GenError.invalidContent := by
  refine ⟨validate_bigPayload_L, ?_⟩
  rw [generate_of_invalid _ _ _ _ (by rw [validate_bigPayload_L])]

/-- C1 (amended): for non-blank content, `generate` rejects with the
capacity error exactly when the trimmed length exceeds the level's limit
`{L: 2953, M: 2331, Q: 1663, H: 1273}`, and the emitted message names
that numeric limit; the 3000-character payload therefore fails under
level High citing 1273, and under level Low it also fails (3000 > 2953),
citing 2953. -/
theorem validateContent_capacity_spec (content : String) (level : Nat)
    (h : jsTrim content ≠ "") :
    ((QRGenerator.validateContent content level).1 = true ↔
      (jsTrim content).length ≤ QRGenerator.getMaxLengthForLevel level) ∧
    (QRGenerator.getMaxLengthForLevel level < (jsTrim content).length →
      QRGenerator.validateContent content level =
        (false, some (QRGenerator.capacityMessage
          (QRGenerator.getMaxLengthForLevel level)))) ∧
    (∀ encode st p, st.options.correctLevel = level →
      ((QRGenerator.generate encode st content p).2 =
          some QRGenerator.GenError.invalidContent ↔
        QRGenerator.getMaxLengthForLevel level < (jsTrim content).length)) ∧
    QRGenerator.getMaxLengthForLevel QRGenerator.CorrectLevel.L = 2953 ∧
    QRGenerator.getMaxLengthForLevel QRGenerator.CorrectLevel.M = 2331 ∧
    QRGenerator.getMaxLengthForLevel QRGenerator.CorrectLevel.Q = 1663 ∧
    QRGenerator.getMaxLengthForLevel QRGenerator.CorrectLevel.H = 1273 ∧
    QRGenerator.validateContent QRGenerator.bigPayload QRGenerator.CorrectLevel.H =
      (false, some (QRGenerator.capacityMessage 1273)) ∧
    (QRGenerator.validateContent QRGenerator.bigPayload QRGenerator.CorrectLevel.L).1 =
      false := by
  refine ⟨validateContent_fst_iff content level h, validateContent_snd_of_long content level h,
    ?_, by decide, by decide, by decide, by decide, validate_bigPayload_H,
    by rw [validate_bigPayload_L]⟩
  intro encode st p hst
  by_cases hlt : QRGenerator.getMaxLengthForLevel level < (jsTrim content).length
  · have hv : (QRGenerator.validateContent content st.options.correctLevel).1 = false := by
      rw [hst, validateContent_snd_of_long content level h hlt]
    rw [generate_of_invalid encode st content p hv]
    simp [hlt]
  · have hv : (QRGenerator.validateContent content st.options.correctLevel).1 = true := by
      rw [hst]
      exact (validateContent_fst_iff content level h).mpr (by omega)
    rw [generate_of_valid encode st content p hv]
    by_cases he : encode content (st.options.merge p)
    · rw [if_pos he]
      simp [hlt]
    · rw [if_neg he]
      simp [hlt]

/-- C1 witness: `"hello"` under level High is accepted, and the
capacity facts at the concrete levels hold. -/
theorem validateContent_capacity_spec_witness :
    ((QRGenerator.validateContent "hello" QRGenerator.CorrectLevel.H).1 = true ↔
      (jsTrim "hello").length ≤ QRGenerator.getMaxLengthForLevel QRGenerator.CorrectLevel.H) ∧
    QRGenerator.getMaxLengthForLevel QRGenerator.CorrectLevel.H = 1273 :=
  ⟨(validateContent_capacity_spec "hello" QRGenerator.CorrectLevel.H (by decide)).1,
    (validateContent_capacity_spec "hello" QRGenerator.CorrectLevel.H (by decide)).2.2.2.2.2.2.1⟩

theorem addToHistory_eq_take (max : Nat) (history : List HistoryManager.HistoryItem)
    (item : HistoryManager.HistoryItem) :
    HistoryManager.addToHistory max history item = (item :: history).take max := by
  unfold HistoryManager.addToHistory
  by_cases hlt : max < (item :: history).length
  · rw [if_pos hlt]
  · rw [if_neg hlt, List.take_of_length_le (Nat.le_of_not_lt hlt)]

theorem take_append_take {α : Type} (xs ys : List α) (n : Nat) :
    (xs ++ ys.take n).take n = (xs ++ ys).take n := by
  rw [List.take_append_eq_append_take, List.take_append_eq_append_take, List.take_take]
  rw [Nat.min_eq_left (Nat.sub_le n xs.length)]

theorem foldl_addToHistory (max : Nat) :
    ∀ (items acc : List HistoryManager.HistoryItem), acc.length ≤ max →
      items.foldl (HistoryManager.addToHistory max) acc =
        (items.reverse ++ acc).take max := by
  intro items
  induction items with
  | nil =>
      intro acc hacc
      simp [List.take_of_length_le hacc]
  | cons i is ih =>
      intro acc hacc
      have hlen : (HistoryManager.addToHistory max acc i).length ≤ max := by
        rw [addToHistory_eq_take, List.length_take]
        exact Nat.min_le_left _ _
      rw [List.foldl_cons, ih (HistoryManager.addToHistory max acc i) hlen,
        addToHistory_eq_take, take_append_take, List.reverse_cons, List.append_assoc,
        List.singleton_append]

theorem addAll_eq (max : Nat) (items : List HistoryManager.HistoryItem) :
    HistoryManager.addAll max items = items.reverse.take max := by
  unfold HistoryManager.addAll
  rw [foldl_addToHistory max items [] (by simp)]
  simp

/-- C3: starting from the empty log, any sequence of `addToHistory` calls
leaves at most `maxItems` entries (the new record goes to the head and
the oldest tail entries are evicted); concretely, the log is always the
most-recent-first prefix of the reversed insertion sequence, so adding 11
items with the default cap 10 drops exactly the first item and keeps the
last 10 in reverse insertion order. -/
theorem history_cap_spec (max : Nat) (items : List HistoryManager.HistoryItem) :
    (HistoryManager.addAll max items).length ≤ max ∧
    HistoryManager.addAll max items = items.reverse.take max ∧
    (items.length = 11 →
      HistoryManager.addAll 10 items = (items.drop 1).reverse) := by
  refine ⟨?_, addAll_eq max items, ?_⟩
  · rw [addAll_eq, List.length_take]
    exact Nat.min_le_left _ _
  · intro h11
    rw [addAll_eq, List.take_reverse, h11]

/-- C3 witness: eleven concrete records with cap 10 — the log holds the
last ten in reverse insertion order. -/
theorem history_cap_spec_witness :
    (HistoryManager.addAll 10
        ((List.range 11).map fun n => ⟨n, "c", "p"⟩)).length ≤ 10 ∧
    HistoryManager.addAll 10 ((List.range 11).map fun n => ⟨n, "c", "p"⟩) =
      (((List.range 11).map fun n =>
        (⟨n, "c", "p"⟩ : HistoryManager.HistoryItem)).drop 1).reverse := by
  refine ⟨(history_cap_spec 10
    ((List.range 11).map fun n => ⟨n, "c", "p"⟩)).1, ?_⟩
  exact (history_cap_spec 10
    ((List.range 11).map fun n => ⟨n, "c", "p"⟩)).2.2 (by simp)

theorem string_append_empty (s : String) : s ++ "" = s := by
  apply string_ext
  simp

theorem splitFirst_sound {sep : Char} :
    ∀ {cs front rest : List Char},
      ContentParser.splitFirst sep cs = some (front, rest) →
        cs = front ++ sep :: rest := by
  intro cs
  induction cs with
  | nil =>
      intro front rest h
      exact absurd h (by simp [ContentParser.splitFirst])
  | cons c cs ih =>
      intro front rest h
      unfold ContentParser.splitFirst at h
      by_cases hc : c = sep
      · rw [if_pos hc] at h
        rw [Option.some.injEq, Prod.mk.injEq] at h
        obtain ⟨h1, h2⟩ := h
        rw [← h1, ← h2, hc]
        rfl
      · rw [if_neg hc] at h
        cases hsp : ContentParser.splitFirst sep cs with
        | none =>
            rw [hsp] at h
            exact Option.noConfusion h
        | some pr =>
            obtain ⟨f, r⟩ := pr
            rw [hsp] at h
            rw [Option.some.injEq, Prod.mk.injEq] at h
            obtain ⟨h1, h2⟩ := h
            rw [← h1, ← h2, ih hsp]
            rfl

theorem at_not_mem_of_all_segChar {l : List Char}
    (h : l.all ContentParser.emailSegChar = true) : '@' ∉ l := by
  intro hm
  have hc := List.all_eq_true.mp h _ hm
  simp [ContentParser.emailSegChar] at hc

theorem dotted_decomp {domain : List Char}
    (hdot : '.' ∈ (domain.drop 1).dropLast) :
    ∃ b c, domain = b ++ '.' :: c ∧ b ≠ [] ∧ c ≠ [] := by
  cases domain with
  | nil => simp at hdot
  | cons d ds =>
      simp only [List.drop_succ_cons, List.drop_zero] at hdot
      rcases List.eq_nil_or_concat' ds with hnil | ⟨init, lastc, hconcat⟩
      · rw [hnil] at hdot
        simp at hdot
      obtain ⟨s, t, hst⟩ := List.append_of_mem hdot
      rw [hconcat, List.dropLast_concat] at hst
      refine ⟨d :: s, t ++ [lastc], ?_, by simp, by simp⟩
      rw [hconcat, hst]
      simp [List.append_assoc]

theorem validateEmail_sound {e : String}
    (h : ContentParser.validateEmail e = true) : ContentParser.EmailCriteria e := by
  unfold ContentParser.validateEmail at h
  cases hsp : ContentParser.splitFirst '@' e.data with
  | none =>
      rw [hsp] at h
      exact Bool.noConfusion h
  | some pr =>
      obtain ⟨front, domain⟩ := pr
      rw [hsp] at h
      simp only [Bool.and_eq_true] at h
      obtain ⟨⟨⟨hfe, hfall⟩, hdall⟩, hdot⟩ := h
      have hfront : front ≠ [] := by
        intro hnil
        rw [hnil] at hfe
        simp at hfe
      refine ⟨front, domain, splitFirst_sound hsp, hfront,
        at_not_mem_of_all_segChar hfall, at_not_mem_of_all_segChar hdall,
        dotted_decomp ?_⟩
      simpa using hdot

theorem intercalate_amp_one (x : String) : String.intercalate "&" [x] = x := rfl

theorem intercalate_amp_two (x y : String) :
    String.intercalate "&" [x, y] = x ++ "&" ++ y := rfl

theorem formatEmail_cases (e s b : String) :
    ContentParser.formatEmail e s b =
      if s = "" then
        (if b = "" then "mailto:" ++ e
         else "mailto:" ++ e ++ "?body=" ++ ContentParser.encodeURIComponent b)
      else
        (if b = "" then
          "mailto:" ++ e ++ "?subject=" ++ ContentParser.encodeURIComponent s
         else
          "mailto:" ++ e ++ "?subject=" ++ ContentParser.encodeURIComponent s ++
            "&body=" ++ ContentParser.encodeURIComponent b) := by
  unfold ContentParser.formatEmail
  by_cases hs : s = "" <;> by_cases hb : b = "" <;>
    simp only [hs, hb, if_pos, if_neg, ite_true, ite_false, List.nil_append,
      List.append_nil, List.length, intercalate_amp_one, intercalate_amp_two,
      string_append_empty, if_true, if_false] <;>
    first
      | rfl
      | (apply string_ext
         simp [List.append_assoc, intercalate_amp_one, intercalate_amp_two])

theorem parseEmail_unfold (email subject body : String) :
    ContentParser.parseEmail email subject body =
      (if jsTrim email = "" then Except.error "Digite um email"
       else if ContentParser.validateEmail (jsTrim email) = false then
         Except.error "Email inválido"
       else Except.ok (ContentParser.formatEmail
         (jsTrim email) (jsTrim subject) (jsTrim body))) := rfl

/-- C4: an accepted email address always has exactly one `@` with a
non-empty segment before it and a dotted domain after it, and any input
failing that criterion is rejected with a validation error; on success
the payload is `mailto:<addr>` with URL-encoded `subject`/`body`
parameters appended only for the non-empty optional fields, joined with
`&` only when both are present; in particular
`format(Email, {address: a@b.com, subject: Hi there})` yields
`mailto:a@b.com?subject=Hi%20there`. -/
theorem parseEmail_spec (email subject body : String) :
    (ContentParser.validateEmail (jsTrim email) = true →
      ContentParser.EmailCriteria (jsTrim email)) ∧
    (¬ ContentParser.EmailCriteria (jsTrim email) →
      ∃ msg, ContentParser.parseEmail email subject body = Except.error msg) ∧
    ContentParser.parseEmail email subject body =
      (if jsTrim email = "" then Except.error "Digite um email"
       else if ContentParser.validateEmail (jsTrim email) = false then
         Except.error "Email inválido"
       else Except.ok (
         if jsTrim subject = "" then
           (if jsTrim body = "" then "mailto:" ++ jsTrim email
            else "mailto:" ++ jsTrim email ++ "?body=" ++
              ContentParser.encodeURIComponent (jsTrim body))
         else
           (if jsTrim body = "" then
              "mailto:" ++ jsTrim email ++ "?subject=" ++
                ContentParser.encodeURIComponent (jsTrim subject)
            else
              "mailto:" ++ jsTrim email ++ "?subject=" ++
                ContentParser.encodeURIComponent (jsTrim subject) ++ "&body=" ++
                ContentParser.encodeURIComponent (jsTrim body)))) ∧
    ContentParser.parseEmail "a@b.com" "Hi there" "" =
      Except.ok "mailto:a@b.com?subject=Hi%20there" := by
  refine ⟨fun h => validateEmail_sound h, ?_, ?_, rfl⟩
  · intro hnc
    by_cases h1 : jsTrim email = ""
    · exact ⟨"Digite um email", by rw [parseEmail_unfold, if_pos h1]⟩
    · by_cases h2 : ContentParser.validateEmail (jsTrim email) = true
      · exact absurd (validateEmail_sound h2) hnc
      · have h2' : ContentParser.validateEmail (jsTrim email) = false := by
          simpa using h2
        exact ⟨"Email inválido",
          by rw [parseEmail_unfold, if_neg h1, if_pos h2']⟩
  · rw [parseEmail_unfold]
    by_cases h1 : jsTrim email = ""
    · rw [if_pos h1, if_pos h1]
    · rw [if_neg h1, if_neg h1]
      by_cases h2 : ContentParser.validateEmail (jsTrim email) = false
      · rw [if_pos h2, if_pos h2]
      · rw [if_neg h2, if_neg h2, formatEmail_cases]

/-- C4 witness: the example address satisfies the criterion and the
example formatting holds. -/
theorem parseEmail_spec_witness :
    ContentParser.EmailCriteria (jsTrim "a@b.com") ∧
    ContentParser.parseEmail "a@b.com" "Hi there" "" =
      Except.ok "mailto:a@b.com?subject=Hi%20there" :=
  ⟨(parseEmail_spec "a@b.com" "Hi there" "").1 (by rfl),
    (parseEmail_spec "a@b.com" "Hi there" "").2.2.2⟩
